import Mathlib

/-!
Verification of the CAPL (Collaborative Agent Planning Loop) repository.

This file shallowly embeds, in Lean 4, the parts of the repository that the
verified properties are about:

* the refinement-orchestrator loop `CAPL.run` of `capl.py` (the loop in
  `capl_cli.py`, `capl_enhanced.py` and `capl_enhanced_cli.py` has the same
  structure);
* the critic approval-status derivation of `capl_enhanced.py`
  (`ChatGPTCriticAgentEnhanced.generate`);
* the pseudo-terminal transport `run_with_pty` of `capl_cli.py`, with the
  operating-system interactions (spawn, nonblocking reads and writes, the
  wall-clock deadline, descriptor state) made explicit as a scenario value
  describing how the external world behaves during the call;
* the three-strategy CLI fallback `_call_cli` of
  `ChatGPTCriticAgentEnhancedCLI` in `capl_enhanced_cli.py`;
* the critic agent `CodexCriticAgentCLI.generate` of `capl_cli.py`.

Python strings are modelled by Lean `String`, Python `str.startswith` and
`str.strip` by executable functions on the character list of the string.
-/

/-! ## Python string primitives -/

/-- Character-list prefix test: `isLeadOf p s` is true when the list `p` is
an initial segment of the list `s`.  This is the semantics of Python
`s.startswith(p)` on the underlying character sequences. -/
def isLeadOf : List Char → List Char → Bool
  | [], _ => true
  | _ :: _, [] => false
  | a :: p, b :: s => a == b && isLeadOf p s

/-- Character-list containment: `occursIn p s` is true when `p` occurs as a
contiguous segment of `s` (semantics of Python `p in s`). -/
def occursIn (p : List Char) : List Char → Bool
  | [] => p.isEmpty
  | b :: s => isLeadOf p (b :: s) || occursIn p s

/-- Python `s.startswith(pre)`. -/
def pyStartswith (s pre : String) : Bool :=
  isLeadOf pre.data s.data

/-- Python `sub in s`. -/
def pyIn (sub s : String) : Bool :=
  occursIn sub.data s.data

/-- The whitespace characters stripped by Python `str.strip()` (the ASCII
ones; the texts handled by this program are ASCII). -/
def pyIsSpace (c : Char) : Bool :=
  c == ' ' || c == '\t' || c == '\n' || c == '\r' || c == '\x0b' || c == '\x0c'

/-- Python `s.strip()`: remove leading and trailing whitespace. -/
def pyStrip (s : String) : String :=
  ⟨((s.data.dropWhile pyIsSpace).reverse.dropWhile pyIsSpace).reverse⟩

/-! ## The orchestrator `CAPL.run` (src/capl.py, lines 116-229)

The worker agent is a function `worker : String → Option String → String`
(model of `ClaudeWorkerAgent.generate(prompt, feedback=None)`), and the
critic agent is `critic : String → String → String × Bool` (model of
`ChatGPTCriticAgent.generate(prompt, work)` returning
`(feedback, is_approved)`).  Console printing, timestamps and the network
calls inside the agents are irrelevant to the verified properties and are
not modelled.  The sequence of agent invocations the loop performs is
recorded as an explicit `trace` so that temporal properties ("no worker
invocation occurs after the approving critic call") are statable. -/

/-- One entry of `self.history`: the `iteration_data` dict of `CAPL.run`. -/
structure IterationData where
  iteration : Nat
  work : Option String
  feedback : Option String
  approved : Bool
deriving DecidableEq, Repr

/-- An agent invocation performed by the loop (instrumentation of the
embedding; each constructor records the arguments of one
`self.worker.generate` or `self.critic.generate` call). -/
inductive Event where
  | workerCall (prompt : String) (feedback : Option String)
  | criticCall (prompt : String) (work : String)
deriving DecidableEq, Repr

/-- Is the event a critic invocation? -/
def isCriticEvent : Event → Bool
  | Event.criticCall _ _ => true
  | _ => false

/-- Is the event a worker invocation? -/
def isWorkerEvent : Event → Bool
  | Event.workerCall _ _ => true
  | _ => false

/-- Number of critic invocations in a trace. -/
def countCritic (t : List Event) : Nat :=
  (t.filter isCriticEvent).length

/-- Number of worker invocations in a trace. -/
def countWorker (t : List Event) : Nat :=
  (t.filter isWorkerEvent).length

/-- Python truthiness of `h.get("feedback")`: `None` and the empty string
are falsy. -/
def pyTruthy : Option String → Bool
  | none => false
  | some s => !s.isEmpty

/-- `self.history[-1].get("approved", False)`; the history produced by a run
is never empty, so the `none` case is unreachable there. -/
def lastApproved (h : List IterationData) : Bool :=
  match h.getLast? with
  | some r => r.approved
  | none => false

/-- The result dict returned by `CAPL.run` (`timestamp` omitted), plus the
invocation trace of the run. -/
structure RunResult where
  final_work : String
  history : List IterationData
  total_iterations : Nat
  approved : Bool
  trace : List Event
deriving DecidableEq, Repr

/-- The `for iteration in range(1, max_iterations + 1)` loop of `CAPL.run`
(src/capl.py lines 173-213).  `fuel` is the number of loop iterations still
to run (`max_iterations + 1 - iteration`), so the guard `fuel = 0` is the
loop's exit condition `iteration > max_iterations`, and in the body (where
`fuel = f + 1`) the test `0 < f` is `iteration < max_iterations`.
`iteration` is threaded through for the `"iteration"` field of the records.

Each executed iteration calls the critic once; on approval the record is
appended and the loop breaks; otherwise, with budget remaining, the worker
refines and the record carries the new work; at the final iteration the
record carries the unchanged work. -/
def runLoop (worker : String → Option String → String)
    (critic : String → String → String × Bool) (prompt : String) :
    Nat → Nat → String → List IterationData → List Event →
      String × List IterationData × List Event
  | _, 0, current_work, history, trace => (current_work, history, trace)
  | iteration, f + 1, current_work, history, trace =>
    let fb := critic prompt current_work
    let trace := trace ++ [Event.criticCall prompt current_work]
    if fb.2 then
      (current_work,
       history ++ [⟨iteration, some current_work, some fb.1, true⟩],
       trace)
    else if 0 < f then
      let new_work := worker prompt (some fb.1)
      runLoop worker critic prompt (iteration + 1) f new_work
        (history ++ [⟨iteration, some new_work, some fb.1, false⟩])
        (trace ++ [Event.workerCall prompt (some fb.1)])
    else
      (current_work,
       history ++ [⟨iteration, some current_work, some fb.1, false⟩],
       trace)

/-- `CAPL.run(prompt)` (src/capl.py lines 132-229).  `history0` is the
content of `self.history` when `run` is called: the constructor initialises
it to `[]`, and `run` never resets it, so a second `run` on the same object
starts from the first run's records. -/
def CAPL.run (worker : String → Option String → String)
    (critic : String → String → String × Bool) (prompt : String)
    (max_iterations : Nat) (history0 : List IterationData) : RunResult :=
  let current_work := worker prompt none
  let r := runLoop worker critic prompt 1 max_iterations current_work
    (history0 ++ [⟨0, some current_work, none, false⟩])
    [Event.workerCall prompt none]
  { final_work := r.1
    history := r.2.1
    total_iterations := (r.2.1.filter (fun h => pyTruthy h.feedback)).length
    approved := lastApproved r.2.1
    trace := r.2.2 }

/-! ### The pure unfolding of the agents' interaction

Because the worker and critic are pure functions, the work that would be
current at the start of loop iteration `n + 1` (when no approval occurred
earlier) is a simple recursion. -/

/-- `workAt n` is the work submitted to the critic at loop iteration
`n + 1`: `workAt 0` is the initial generation, and `workAt (n+1)` is the
refinement produced from the critic's feedback on `workAt n`. -/
def workAt (worker : String → Option String → String)
    (critic : String → String → String × Bool) (prompt : String) :
    Nat → String
  | 0 => worker prompt none
  | n + 1 => worker prompt (some (critic prompt (workAt worker critic prompt n)).1)

/-- The critic's feedback text at loop iteration `n + 1`. -/
def feedbackAt (worker : String → Option String → String)
    (critic : String → String → String × Bool) (prompt : String) (n : Nat) :
    String :=
  (critic prompt (workAt worker critic prompt n)).1

/-- The critic's approval verdict at loop iteration `n + 1`. -/
def approvesAt (worker : String → Option String → String)
    (critic : String → String → String × Bool) (prompt : String) (n : Nat) :
    Bool :=
  (critic prompt (workAt worker critic prompt n)).2

/-! ## The critic approval-status convention
(src/capl_enhanced.py lines 159-174, src/capl.py lines 110-113)

`ChatGPTCriticAgentEnhanced.generate` computes
`is_approved = feedback.startswith("APPROVED:")` and
`needs_verification = feedback.startswith("NEEDS VERIFICATION:")`; only
`is_approved` is returned to (and branched on by) the orchestrator loop,
while `needs_verification` only selects an informational `search_summary`
placeholder string.  The three-way structured status of the specification
is the evident reading of that boolean pair. -/

/-- `is_approved` of the critic agents (src/capl_enhanced.py line 162;
src/capl.py line 111 is identical). -/
def is_approved (feedback : String) : Bool :=
  pyStartswith feedback "APPROVED:"

/-- `needs_verification` of the enhanced critic agents
(src/capl_enhanced.py line 163). -/
def needs_verification (feedback : String) : Bool :=
  pyStartswith feedback "NEEDS VERIFICATION:"

/-- The three-way review status of the specification's data model. -/
inductive ReviewStatus where
  | approved
  | pendingVerification
  | needsWork
deriving DecidableEq, Repr

/-- The structured status the critic's boolean pair encodes: the literal
leading text of the raw response decides it. -/
def criticStatus (feedback : String) : ReviewStatus :=
  if is_approved feedback then ReviewStatus.approved
  else if needs_verification feedback then ReviewStatus.pendingVerification
  else ReviewStatus.needsWork

/-- The `search_summary` computed by the enhanced critic
(src/capl_enhanced.py lines 166-172): a placeholder string when
verification was requested and search is enabled; it is never branched on
by the loop. -/
def searchSummary (feedback : String) (enable_search : Bool) : Option String :=
  if needs_verification feedback && enable_search then
    some "[Search capability enabled but not implemented in this version]"
  else none

/-! ## The pseudo-terminal transport `run_with_pty`
(src/capl_cli.py lines 25-154)

The function interacts with the operating system: `pty.openpty`,
`subprocess.Popen`, nonblocking `os.write`/`os.read` on the master
descriptor, a wall-clock deadline, `process.kill`, `process.communicate`
and `os.close`.  The embedding makes the environment's behaviour during one
call explicit as a `PtyScenario` value and computes, from the control flow
of the source, which exit the call takes and in which state it leaves the
resources it created (the two descriptors of the pseudo-terminal pair and
the child process). -/

/-- State, when `run_with_pty` returns or raises, of the resources the call
created.  `childSpawned`/`childRunning` are vacuously false when
`subprocess.Popen` itself raised. -/
structure PtyState where
  masterOpen : Bool
  slaveOpen : Bool
  childSpawned : Bool
  childRunning : Bool
deriving DecidableEq, Repr

/-- Outcome of the writer thread `write_input` (src/capl_cli.py lines
64-81): either all input bytes were written (`EAGAIN` retried), or an
unrecoverable `OSError` was recorded in `write_error`. -/
inductive WriteOutcome where
  | completed
  | failed
deriving DecidableEq, Repr

/-- One non-final iteration of the read loop (src/capl_cli.py lines
90-115): `os.read` either returned a chunk of data, or raised
`EAGAIN`/`EWOULDBLOCK` while the child was still alive (sleep and retry). -/
inductive ReadStep where
  | chunk (data : String)
  | wouldBlockAlive
deriving DecidableEq, Repr

/-- How the read loop ends: `os.read` returned empty (`break`); `EAGAIN`
with the child already exited (one final drain read, then `break`); another
`OSError` (`break`); or the wall-clock deadline was exceeded
(`process.kill()` and `raise RuntimeError`). -/
inductive ReadEnd where
  | eof
  | childExited (finalChunk : Option String)
  | readFailed
  | deadline
deriving DecidableEq, Repr

/-- Behaviour of the environment after a successful spawn. -/
structure SpawnedBehavior where
  writeOutcome : WriteOutcome
  readSteps : List ReadStep
  readEnd : ReadEnd
  stderrText : String
  exitCode : Int
  communicateTimesOut : Bool
deriving DecidableEq, Repr

/-- Behaviour of the environment during one `run_with_pty` call:
`subprocess.Popen` raises `FileNotFoundError` (missing executable), or the
spawn succeeds and the child behaves as described. -/
inductive PtyScenario where
  | spawnFails
  | spawned (b : SpawnedBehavior)
deriving DecidableEq, Repr

/-- How a `run_with_pty` call ends: a returned `Result` object, or one of
the three raised exceptions (`FileNotFoundError` propagated from `Popen`;
`RuntimeError` from the deadline check; the writer thread's recorded
`OSError` re-raised). -/
inductive PtyOutcome where
  | result (stdout stderr : String) (returncode : Int)
  | fileNotFoundRaised
  | timeoutRaised (timeout : Nat)
  | writeErrorRaised
deriving DecidableEq, Repr

/-- The bytes accumulated by the read loop over its non-final iterations
(`output += chunk`). -/
def readChunks : List ReadStep → String
  | [] => ""
  | ReadStep.chunk d :: rest => d ++ readChunks rest
  | ReadStep.wouldBlockAlive :: rest => readChunks rest

/-- The full output drained by the read loop, including the final drain
read performed when the child has already exited. -/
def drainedOutput (steps : List ReadStep) (e : ReadEnd) : String :=
  match e with
  | ReadEnd.childExited (some extra) => readChunks steps ++ extra
  | _ => readChunks steps

/-- `run_with_pty(command, input_text, timeout)` on a platform with pty
support (src/capl_cli.py lines 42-154), as a function of the environment's
behaviour `sc`.  Control flow traced from the source:

* `master, slave = pty.openpty()` opens both descriptors;
* if `subprocess.Popen` raises, the handler at lines 143-154 closes
  `master` and finds no `process` in scope; the `FileNotFoundError`
  propagates — the slave descriptor is not closed on this path;
* on success `os.close(slave)` runs, the writer thread starts, and the
  read loop runs until its end condition;
* deadline exceeded: `process.kill()` then `raise RuntimeError` (lines
  91-93); the handler closes `master` and kills again;
* read loop done and `write_error` nonempty: `raise write_error[0]`
  (lines 120-121) — the handler closes `master` and kills the child;
* otherwise `os.close(master)`, `process.communicate(timeout=5)` (killing
  the child first if that times out), and a `Result` is returned whose
  stdout is the drained output, decoded and stripped (line 138). -/
def run_with_pty (input_text : String) (timeout : Nat) (sc : PtyScenario) :
    PtyOutcome × PtyState :=
  match sc with
  | PtyScenario.spawnFails =>
    (PtyOutcome.fileNotFoundRaised,
     { masterOpen := false, slaveOpen := true,
       childSpawned := false, childRunning := false })
  | PtyScenario.spawned b =>
    match b.readEnd with
    | ReadEnd.deadline =>
      (PtyOutcome.timeoutRaised timeout,
       { masterOpen := false, slaveOpen := false,
         childSpawned := true, childRunning := false })
    | _ =>
      match b.writeOutcome with
      | WriteOutcome.failed =>
        (PtyOutcome.writeErrorRaised,
         { masterOpen := false, slaveOpen := false,
           childSpawned := true, childRunning := false })
      | WriteOutcome.completed =>
        (PtyOutcome.result (pyStrip (drainedOutput b.readSteps b.readEnd))
           b.stderrText b.exitCode,
         { masterOpen := false, slaveOpen := false,
           childSpawned := true, childRunning := false })

/-- The fallback branch of `run_with_pty` (src/capl_cli.py lines 27-35,
pipe mode): `subprocess.run` with pipes returns the completed process
unchanged — no transformation is applied to the captured stdout. -/
structure CompletedProcess where
  stdout : String
  stderr : String
  returncode : Int
deriving DecidableEq, Repr

/-- Pipe-mode transport on a run where the child writes `childStdout` to
stdout, `childStderr` to stderr and exits with `code` before the
deadline. -/
def run_with_pipes (input_text childStdout childStderr : String)
    (code : Int) : CompletedProcess :=
  { stdout := childStdout, stderr := childStderr, returncode := code }

/-- Did the call return a `Result` object (as opposed to raising)? -/
def isReturnedResult : PtyOutcome → Bool
  | PtyOutcome.result _ _ _ => true
  | _ => false

/-- Did the call raise the deadline `RuntimeError`? -/
def isTimeoutRaised : PtyOutcome → Bool
  | PtyOutcome.timeoutRaised _ => true
  | _ => false

/-- Did the call let `FileNotFoundError` propagate? -/
def isNotFoundRaised : PtyOutcome → Bool
  | PtyOutcome.fileNotFoundRaised => true
  | _ => false

/-- Did the call re-raise the writer thread's error? -/
def isWriteErrorRaised : PtyOutcome → Bool
  | PtyOutcome.writeErrorRaised => true
  | _ => false

/-- How `CodexCriticAgentCLI.generate` (src/capl_cli.py lines 236-270) ends:
a returned `(feedback, is_approved)` pair, or one of the raised errors.
`raisedNotFound` is the `RuntimeError` built in the
`except FileNotFoundError` handler at lines 269-270; the deadline
`RuntimeError` and the writer error are not caught there and propagate. -/
inductive CriticCallOutcome where
  | ok (feedback : String) (approvedFlag : Bool)
  | raisedFailed (stderr : String)
  | raisedNotFound
  | raisedTimeout (timeout : Nat)
  | raisedWriteError
deriving DecidableEq, Repr

/-- `CodexCriticAgentCLI.generate`, given the transport scenario: calls
`run_with_pty` with a 120-second timeout; a returned result with nonzero
exit raises `RuntimeError("Codex CLI failed: ...")`; otherwise the stripped
stdout is the feedback and `is_approved` is its `"APPROVED:"` prefix test;
`FileNotFoundError` is converted to the not-found `RuntimeError`. -/
def codexGenerate (critique_prompt : String) (sc : PtyScenario) :
    CriticCallOutcome :=
  match (run_with_pty critique_prompt 120 sc).1 with
  | PtyOutcome.result out err code =>
    if code ≠ 0 then CriticCallOutcome.raisedFailed err
    else CriticCallOutcome.ok (pyStrip out) (is_approved (pyStrip out))
  | PtyOutcome.fileNotFoundRaised => CriticCallOutcome.raisedNotFound
  | PtyOutcome.timeoutRaised t => CriticCallOutcome.raisedTimeout t
  | PtyOutcome.writeErrorRaised => CriticCallOutcome.raisedWriteError

/-! ## The three-strategy CLI fallback
(`ChatGPTCriticAgentEnhancedCLI._call_cli`, src/capl_enhanced_cli.py lines
168-215)

Each invocation strategy is one `subprocess.run` call; its observable
behaviour is the completed process's `(returncode, stdout, stderr)`.  The
source keeps a single `result` variable: it holds attempt 1, is replaced by
attempt 2 if the return code was nonzero, then by attempt 3 likewise; if
the final `result` is still nonzero a single `RuntimeError` is raised whose
message is built from that final result's stderr plus fixed remediation
guidance (lines 203-209); otherwise the final result's stripped stdout is
returned. -/

/-- Observable behaviour of one invocation strategy's `subprocess.run`. -/
structure AttemptResult where
  returncode : Int
  stdout : String
  stderr : String
deriving DecidableEq, Repr

/-- The remediation guidance appended to the composite failure message
(src/capl_enhanced_cli.py lines 205-208). -/
def openaiHint : String :=
  "Hint: The OpenAI CLI has limited functionality. Consider:\n1. Using the SDK version: capl_enhanced.py\n2. Creating a wrapper script (see cli_wrappers/ directory)\n3. Use --critic-cli to specify your own wrapper script"

/-- The composite failure message (src/capl_enhanced_cli.py lines
204-208). -/
def openaiFailMessage (stderr : String) : String :=
  "OpenAI CLI failed: " ++ stderr ++ "\n\n" ++ openaiHint

/-- `_call_cli` of the enhanced CLI critic: `Except.error` is the raised
`RuntimeError`, `Except.ok` the returned stripped stdout. -/
def call_cli (attempt1 attempt2 attempt3 : AttemptResult) :
    Except String String :=
  let result := attempt1
  let result := if result.returncode ≠ 0 then attempt2 else result
  let result := if result.returncode ≠ 0 then attempt3 else result
  if result.returncode ≠ 0 then
    Except.error (openaiFailMessage result.stderr)
  else
    Except.ok (pyStrip result.stdout)

/-- Does the scenario make the read loop hit the wall-clock deadline? -/
def hitsDeadline : PtyScenario → Bool
  | PtyScenario.spawned b =>
    match b.readEnd with
    | ReadEnd.deadline => true
    | _ => false
  | PtyScenario.spawnFails => false

/-! ## Helper lemmas -/

/-- Two nonempty prefixes of the same list start with the same character. -/
theorem isLeadOf_head_eq (a b : Char) (p q s : List Char)
    (hp : isLeadOf (a :: p) s = true) (hq : isLeadOf (b :: q) s = true) :
    a = b := by
  cases s with
  | nil => simp [isLeadOf] at hp
  | cons c s =>
    simp only [isLeadOf, Bool.and_eq_true, beq_iff_eq] at hp hq
    exact hp.1.trans hq.1.symm

/-- A response that requests verification does not carry the approval
prefix: the two prefixes disagree on the first character. -/
theorem needs_verification_not_approved (s : String)
    (h : needs_verification s = true) : is_approved s = false := by
  cases hA : is_approved s with
  | false => rfl
  | true =>
    have h1 : isLeadOf ('A' :: ("PPROVED:").data) s.data = true := by
      have e : ('A' :: ("PPROVED:").data) = ("APPROVED:").data := by decide
      rw [e]
      exact hA
    have h2 : isLeadOf ('N' :: ("EEDS VERIFICATION:").data) s.data = true := by
      have e : ('N' :: ("EEDS VERIFICATION:").data) =
          ("NEEDS VERIFICATION:").data := by decide
      rw [e]
      exact h
    have hc : ('A' : Char) = 'N' :=
      isLeadOf_head_eq 'A' 'N' _ _ s.data h1 h2
    exact absurd hc (by decide)

/-- The last element of a list ending in a singleton. -/
theorem getLastOfConcat {α : Type} (l : List α) (a : α) :
    (l ++ [a]).getLast? = some a := by
  induction l with
  | nil => rfl
  | cons b l ih =>
    cases l with
    | nil => rfl
    | cons c l => simp [List.getLast?, List.getLast]

/-- Appending on the left does not change the last element of a nonempty
list. -/
theorem getLastOfAppend {α : Type} (l1 l2 : List α) (h : l2 ≠ []) :
    (l1 ++ l2).getLast? = l2.getLast? := by
  rcases List.eq_nil_or_concat l2 with rfl | ⟨l', a, rfl⟩
  · exact absurd rfl h
  · rw [List.concat_eq_append, ← List.append_assoc, getLastOfConcat,
      getLastOfConcat]

/-- `countCritic` distributes over `++`. -/
theorem countCritic_append (t1 t2 : List Event) :
    countCritic (t1 ++ t2) = countCritic t1 + countCritic t2 := by
  simp [countCritic]

/-- `countWorker` distributes over `++`. -/
theorem countWorker_append (t1 t2 : List Event) :
    countWorker (t1 ++ t2) = countWorker t1 + countWorker t2 := by
  simp [countWorker]

/-! ## Step lemmas for `runLoop` -/

/-- Loop body, approval branch: record appended, loop breaks. -/
theorem runLoop_step_approved (worker : String → Option String → String)
    (critic : String → String → String × Bool) (prompt : String)
    (iteration f : Nat) (work : String) (H : List IterationData)
    (T : List Event) (h : (critic prompt work).2 = true) :
    runLoop worker critic prompt iteration (f + 1) work H T =
      (work,
       H ++ [⟨iteration, some work, some (critic prompt work).1, true⟩],
       T ++ [Event.criticCall prompt work]) := by
  simp [runLoop, h]

/-- Loop body, refinement branch (`iteration < max_iterations`): worker
invoked, record carries the new work, loop continues. -/
theorem runLoop_step_refine (worker : String → Option String → String)
    (critic : String → String → String × Bool) (prompt : String)
    (iteration f : Nat) (work : String) (H : List IterationData)
    (T : List Event) (h : (critic prompt work).2 = false) (hf : 0 < f) :
    runLoop worker critic prompt iteration (f + 1) work H T =
      runLoop worker critic prompt (iteration + 1) f
        (worker prompt (some (critic prompt work).1))
        (H ++ [⟨iteration, some (worker prompt (some (critic prompt work).1)),
                some (critic prompt work).1, false⟩])
        (T ++ [Event.criticCall prompt work,
               Event.workerCall prompt (some (critic prompt work).1)]) := by
  simp [runLoop, h, hf]

/-- Loop body, exhaustion branch (`iteration == max_iterations`, no
approval): record carries the unchanged work, loop ends. -/
theorem runLoop_step_exhaust (worker : String → Option String → String)
    (critic : String → String → String × Bool) (prompt : String)
    (iteration : Nat) (work : String) (H : List IterationData)
    (T : List Event) (h : (critic prompt work).2 = false) :
    runLoop worker critic prompt iteration 1 work H T =
      (work,
       H ++ [⟨iteration, some work, some (critic prompt work).1, false⟩],
       T ++ [Event.criticCall prompt work]) := by
  simp [runLoop, h]

/-! ## Structural characterisation of `runLoop` -/

/-- Whatever the agents do, the loop only appends: starting at iteration
index `iteration` with `f` budget left, it appends some `Δh` to the history
and some `Δt` to the trace, independently of the history and trace so far;
at most `f` records are appended; the `j`-th appended record carries
iteration index `iteration + j`; and the number of critic invocations
equals the number of appended records. -/
theorem runLoop_structure (worker : String → Option String → String)
    (critic : String → String → String × Bool) (prompt : String) :
    ∀ (f iteration : Nat) (work : String),
      ∃ (Δh : List IterationData) (Δt : List Event) (fw : String),
        (∀ H T, runLoop worker critic prompt iteration f work H T =
          (fw, H ++ Δh, T ++ Δt)) ∧
        Δh.length ≤ f ∧
        (∀ j (hj : j < Δh.length),
          (Δh.get ⟨j, hj⟩).iteration = iteration + j) ∧
        countCritic Δt = Δh.length := by
  intro f
  induction f with
  | zero =>
    intro iteration work
    refine ⟨[], [], work, ?_, by simp, ?_, rfl⟩
    · intro H T; simp [runLoop]
    · intro j hj; simp at hj
  | succ f ih =>
    intro iteration work
    by_cases h2 : (critic prompt work).2 = true
    · refine ⟨[⟨iteration, some work, some (critic prompt work).1, true⟩],
        [Event.criticCall prompt work], work, ?_, by simp, ?_, ?_⟩
      · intro H T
        exact runLoop_step_approved worker critic prompt iteration f work H T h2
      · intro j hj
        simp only [List.length_singleton] at hj
        interval_cases j
        simp
      · simp [countCritic, isCriticEvent]
    · rw [Bool.not_eq_true] at h2
      by_cases hf : 0 < f
      · obtain ⟨Δh, Δt, fw, hrun, hlen, hidx, hcc⟩ :=
          ih (iteration + 1) (worker prompt (some (critic prompt work).1))
        refine ⟨⟨iteration, some (worker prompt (some (critic prompt work).1)),
                  some (critic prompt work).1, false⟩ :: Δh,
                Event.criticCall prompt work ::
                  Event.workerCall prompt (some (critic prompt work).1) :: Δt,
                fw, ?_, ?_, ?_, ?_⟩
        · intro H T
          rw [runLoop_step_refine worker critic prompt iteration f work H T
            h2 hf, hrun]
          simp
        · simp only [List.length_cons]
          omega
        · intro j hj
          cases j with
          | zero => simp
          | succ j =>
            simp only [List.length_cons] at hj
            have hx := hidx j (by omega)
            simp only [List.get_cons_succ]
            rw [hx]
            omega
        · have hcc' : (Δt.filter isCriticEvent).length = Δh.length := hcc
          simp [countCritic, isCriticEvent, isWorkerEvent, hcc']
      · have hf0 : f = 0 := by omega
        subst hf0
        refine ⟨[⟨iteration, some work, some (critic prompt work).1, false⟩],
          [Event.criticCall prompt work], work, ?_, by simp, ?_, ?_⟩
        · intro H T
          exact runLoop_step_exhaust worker critic prompt iteration work H T h2
        · intro j hj
          simp only [List.length_singleton] at hj
          interval_cases j
          simp
        · simp [countCritic, isCriticEvent]

/-- If no approval occurs at iterations `i+1 .. i+d` and the critic
approves at iteration `i+d+1` (within budget: `d < f`), the loop started at
iteration `i+1` halts at the approving critic call: the final work is the
work submitted there, the last appended record is the approving record
carrying that same work, and the last trace event is that critic call
(hence no worker invocation follows it). -/
theorem runLoop_halts_on_approval (worker : String → Option String → String)
    (critic : String → String → String × Bool) (prompt : String) :
    ∀ (d f i : Nat), d < f →
      (∀ j, j < d → approvesAt worker critic prompt (i + j) = false) →
      approvesAt worker critic prompt (i + d) = true →
      ∃ (Hd : List IterationData) (Td : List Event),
        ∀ H T, runLoop worker critic prompt (i + 1) f
            (workAt worker critic prompt i) H T =
          (workAt worker critic prompt (i + d),
           H ++ Hd ++ [⟨i + d + 1, some (workAt worker critic prompt (i + d)),
             some (feedbackAt worker critic prompt (i + d)), true⟩],
           T ++ Td ++
             [Event.criticCall prompt (workAt worker critic prompt (i + d))]) := by
  intro d
  induction d with
  | zero =>
    intro f i hdf hna happ
    obtain ⟨f, rfl⟩ : ∃ g, f = g + 1 := ⟨f - 1, by omega⟩
    refine ⟨[], [], ?_⟩
    intro H T
    rw [runLoop_step_approved worker critic prompt (i + 1) f
      (workAt worker critic prompt i) H T (by simpa [approvesAt] using happ)]
    simp [feedbackAt]
  | succ d ihd =>
    intro f i hdf hna happ
    obtain ⟨f, rfl⟩ : ∃ g, f = g + 1 := ⟨f - 1, by omega⟩
    have h0 : (critic prompt (workAt worker critic prompt i)).2 = false := by
      have hn := hna 0 (by omega)
      simpa [approvesAt] using hn
    have hfpos : 0 < f := by omega
    obtain ⟨Hd, Td, hrun⟩ := ihd f (i + 1) (by omega)
      (by
        intro j hj
        have hn := hna (j + 1) (by omega)
        rwa [show i + (j + 1) = i + 1 + j by omega] at hn)
      (by rwa [show i + (d + 1) = i + 1 + d by omega] at happ)
    refine ⟨⟨i + 1, some (workAt worker critic prompt (i + 1)),
              some (feedbackAt worker critic prompt i), false⟩ :: Hd,
            Event.criticCall prompt (workAt worker critic prompt i) ::
              Event.workerCall prompt
                (some (feedbackAt worker critic prompt i)) :: Td, ?_⟩
    intro H T
    rw [runLoop_step_refine worker critic prompt (i + 1) f
      (workAt worker critic prompt i) H T h0 hfpos]
    have hw : worker prompt (some (critic prompt
        (workAt worker critic prompt i)).1) =
        workAt worker critic prompt (i + 1) := rfl
    rw [hw]
    rw [hrun]
    have e1 : i + 1 + d = i + (d + 1) := by omega
    rw [e1]
    simp [feedbackAt]

/-- If the critic approves at none of the iterations `i+1 .. i+d+1` and the
budget is exactly `d+1`, the loop started at iteration `i+1` exhausts the
budget: refinement occurs at every iteration but the last, the final work
is the work submitted at the last iteration (unchanged by it), the last
appended record is the non-approving record of iteration `i+d+1` carrying
that work, and exactly `d` worker invocations occur in the loop. -/
theorem runLoop_exhausts (worker : String → Option String → String)
    (critic : String → String → String × Bool) (prompt : String) :
    ∀ (d i : Nat),
      (∀ j, j ≤ d → approvesAt worker critic prompt (i + j) = false) →
      ∃ (Hd : List IterationData) (Td : List Event),
        Hd.length = d ∧ countWorker Td = d ∧
        ∀ H T, runLoop worker critic prompt (i + 1) (d + 1)
            (workAt worker critic prompt i) H T =
          (workAt worker critic prompt (i + d),
           H ++ Hd ++ [⟨i + d + 1, some (workAt worker critic prompt (i + d)),
             some (feedbackAt worker critic prompt (i + d)), false⟩],
           T ++ Td ++
             [Event.criticCall prompt (workAt worker critic prompt (i + d))]) := by
  intro d
  induction d with
  | zero =>
    intro i hna
    have h0 : (critic prompt (workAt worker critic prompt i)).2 = false := by
      have hn := hna 0 (by omega)
      simpa [approvesAt] using hn
    refine ⟨[], [], rfl, rfl, ?_⟩
    intro H T
    rw [runLoop_step_exhaust worker critic prompt (i + 1)
      (workAt worker critic prompt i) H T h0]
    simp [feedbackAt]
  | succ d ihd =>
    intro i hna
    have h0 : (critic prompt (workAt worker critic prompt i)).2 = false := by
      have hn := hna 0 (by omega)
      simpa [approvesAt] using hn
    obtain ⟨Hd, Td, hhl, hwc, hrun⟩ := ihd (i + 1)
      (by
        intro j hj
        have hn := hna (j + 1) (by omega)
        rwa [show i + (j + 1) = i + 1 + j by omega] at hn)
    refine ⟨⟨i + 1, some (workAt worker critic prompt (i + 1)),
              some (feedbackAt worker critic prompt i), false⟩ :: Hd,
            Event.criticCall prompt (workAt worker critic prompt i) ::
              Event.workerCall prompt
                (some (feedbackAt worker critic prompt i)) :: Td,
            by simp [hhl], ?_, ?_⟩
    · simp only [countWorker, List.filter_cons, isWorkerEvent]
      simp only [countWorker] at hwc
      simp [hwc]
    · intro H T
      rw [runLoop_step_refine worker critic prompt (i + 1) (d + 1)
        (workAt worker critic prompt i) H T h0 (by omega)]
      have hw : worker prompt (some (critic prompt
          (workAt worker critic prompt i)).1) =
          workAt worker critic prompt (i + 1) := rfl
      rw [hw]
      rw [hrun]
      have e1 : i + 1 + d = i + (d + 1) := by omega
      rw [e1]
      simp [feedbackAt]

/-- `lastApproved` only looks at the end of the history. -/
theorem lastApproved_append (l1 l2 : List IterationData) (h : l2 ≠ []) :
    lastApproved (l1 ++ l2) = lastApproved l2 := by
  unfold lastApproved
  rw [getLastOfAppend l1 l2 h]

/-- Top-level decomposition of `CAPL.run`: one call appends a nonempty
block of records `Δ` (determined by the agents, the prompt and the budget
alone, not by the pre-existing history) whose `j`-th element carries
iteration index `j`, with at most `m + 1` records and at most `m` critic
invocations, and the `approved` flag is read off the end of `Δ`. -/
theorem run_decomp (worker : String → Option String → String)
    (critic : String → String → String × Bool) (prompt : String) (m : Nat) :
    ∃ (Δ : List IterationData) (tr : List Event) (fw : String),
      Δ ≠ [] ∧ Δ.length ≤ m + 1 ∧
      (∀ j (hj : j < Δ.length), (Δ.get ⟨j, hj⟩).iteration = j) ∧
      countCritic tr ≤ m ∧
      ∀ h0 : List IterationData,
        (CAPL.run worker critic prompt m h0).history = h0 ++ Δ ∧
        (CAPL.run worker critic prompt m h0).trace = tr ∧
        (CAPL.run worker critic prompt m h0).final_work = fw ∧
        (CAPL.run worker critic prompt m h0).approved = lastApproved Δ := by
  obtain ⟨Δh, Δt, fw, hrun, hlen, hidx, hcc⟩ :=
    runLoop_structure worker critic prompt m 1 (worker prompt none)
  refine ⟨⟨0, some (worker prompt none), none, false⟩ :: Δh,
    Event.workerCall prompt none :: Δt, fw, by simp, ?_, ?_, ?_, ?_⟩
  · simp only [List.length_cons]
    omega
  · intro j hj
    cases j with
    | zero => simp
    | succ j =>
      simp only [List.length_cons] at hj
      have hx := hidx j (by omega)
      simp only [List.get_cons_succ]
      rw [hx]
      omega
  · have hcc' : (Δt.filter isCriticEvent).length = Δh.length := hcc
    simp only [countCritic, List.filter_cons, isWorkerEvent, isCriticEvent]
    simp [hcc']
    omega
  · intro h0
    have hr := hrun (h0 ++ [⟨0, some (worker prompt none), none, false⟩])
      [Event.workerCall prompt none]
    refine ⟨?_, ?_, ?_, ?_⟩
    · show (runLoop worker critic prompt 1 m (worker prompt none)
        (h0 ++ [⟨0, some (worker prompt none), none, false⟩])
        [Event.workerCall prompt none]).2.1 = _
      rw [hr]
      simp
    · show (runLoop worker critic prompt 1 m (worker prompt none)
        (h0 ++ [⟨0, some (worker prompt none), none, false⟩])
        [Event.workerCall prompt none]).2.2 = _
      rw [hr]
      rfl
    · show (runLoop worker critic prompt 1 m (worker prompt none)
        (h0 ++ [⟨0, some (worker prompt none), none, false⟩])
        [Event.workerCall prompt none]).1 = _
      rw [hr]
    · show lastApproved (runLoop worker critic prompt 1 m (worker prompt none)
        (h0 ++ [⟨0, some (worker prompt none), none, false⟩])
        [Event.workerCall prompt none]).2.1 = _
      rw [hr]
      show lastApproved (h0 ++ [⟨0, some (worker prompt none), none, false⟩]
        ++ Δh) = _
      rw [List.append_assoc, lastApproved_append h0 _ (by simp)]
      rfl

/-! ## The claims -/

/-- C3: for every run in which the critic's response at some iteration `k`
(`1 ≤ k ≤ maxIterations`) is approving (and no earlier iteration was
approving, so the run actually reaches iteration `k`), the loop halts at
`k`: the session's `approved` flag is true, the final work equals the
unchanged work that was submitted to and approved by the critic, the
record appended for iteration `k` carries that same work, and the last
event of the run's invocation trace is the approving critic call — hence
no worker invocation occurs after it. -/
theorem claim_C3 (worker : String → Option String → String)
    (critic : String → String → String × Bool) (prompt : String)
    (m k : Nat) (h0 : List IterationData)
    (hk : 1 ≤ k) (hkm : k ≤ m)
    (hmin : ∀ j, j + 1 < k → approvesAt worker critic prompt j = false)
    (happ : approvesAt worker critic prompt (k - 1) = true) :
    (CAPL.run worker critic prompt m h0).approved = true ∧
    (CAPL.run worker critic prompt m h0).final_work =
      workAt worker critic prompt (k - 1) ∧
    (CAPL.run worker critic prompt m h0).history.getLast? =
      some ⟨k, some (workAt worker critic prompt (k - 1)),
        some (feedbackAt worker critic prompt (k - 1)), true⟩ ∧
    (CAPL.run worker critic prompt m h0).trace.getLast? =
      some (Event.criticCall prompt (workAt worker critic prompt (k - 1))) := by
  obtain ⟨Hd, Td, hrun⟩ := runLoop_halts_on_approval worker critic prompt
    (k - 1) m 0 (by omega)
    (by
      intro j hj
      have hx := hmin j (by omega)
      simpa using hx)
    (by simpa using happ)
  simp only [Nat.zero_add] at hrun
  rw [show k - 1 + 1 = k from by omega] at hrun
  rw [show workAt worker critic prompt 0 = worker prompt none from rfl] at hrun
  have hr := hrun (h0 ++ [⟨0, some (worker prompt none), none, false⟩])
    [Event.workerCall prompt none]
  refine ⟨?_, ?_, ?_, ?_⟩
  · show lastApproved (runLoop worker critic prompt 1 m (worker prompt none)
      (h0 ++ [⟨0, some (worker prompt none), none, false⟩])
      [Event.workerCall prompt none]).2.1 = true
    rw [hr]
    show lastApproved _ = true
    unfold lastApproved
    rw [getLastOfConcat]
  · show (runLoop worker critic prompt 1 m (worker prompt none)
      (h0 ++ [⟨0, some (worker prompt none), none, false⟩])
      [Event.workerCall prompt none]).1 = _
    rw [hr]
  · show (runLoop worker critic prompt 1 m (worker prompt none)
      (h0 ++ [⟨0, some (worker prompt none), none, false⟩])
      [Event.workerCall prompt none]).2.1.getLast? = _
    rw [hr]
    exact getLastOfConcat _ _
  · show (runLoop worker critic prompt 1 m (worker prompt none)
      (h0 ++ [⟨0, some (worker prompt none), none, false⟩])
      [Event.workerCall prompt none]).2.2.getLast? = _
    rw [hr]
    exact getLastOfConcat _ _

/-- C3 witness: a critic that approves immediately, with budget 2. -/
theorem claim_C3_witness :
    (CAPL.run
      (fun _ fb => match fb with | none => "draft1" | some _ => "draft2")
      (fun _ _ => ("APPROVED: good", true)) "X" 2 []).approved = true :=
  (claim_C3
    (fun _ fb => match fb with | none => "draft1" | some _ => "draft2")
    (fun _ _ => ("APPROVED: good", true)) "X" 2 1 [] (by omega) (by omega)
    (fun j hj => absurd hj (by omega)) rfl).1

/-- C4 counterexample, refuting the claim as stated: with
`maxIterations = 1` and a critic that never approves, the run performs
exactly one worker invocation (the initial generation) — no refined draft
is produced at iteration 1, because the loop's refinement branch requires
`iteration < max_iterations` — and the final work is the iteration-0
initial draft `"draft1"`, which differs from the draft `"draft2"` that a
refinement at iteration 1 would have produced. -/
theorem claim_C4_counterexample :
    (CAPL.run
      (fun _ fb => match fb with | none => "draft1" | some _ => "draft2")
      (fun _ _ => ("NEEDS WORK: add detail", false)) "X" 1 []).final_work =
      "draft1" ∧
    countWorker (CAPL.run
      (fun _ fb => match fb with | none => "draft1" | some _ => "draft2")
      (fun _ _ => ("NEEDS WORK: add detail", false)) "X" 1 []).trace = 1 ∧
    workAt (fun _ fb => match fb with | none => "draft1" | some _ => "draft2")
      (fun _ _ => ("NEEDS WORK: add detail", false)) "X" 1 = "draft2" ∧
    ("draft1" : String) ≠ "draft2" := by
  refine ⟨rfl, rfl, rfl, by decide⟩

/-- C4 (amended): for every run with `maxIterations ≥ 1` in which the
critic never approves, the session ends with `approved = false` and
`final_work` equal to the last worker output produced (`workAt (m - 1)`),
and the run appends `m + 1` records; in the specific scenario
`maxIterations = 1` on a fresh instance, the history has length 2, the
final work equals the *initial* draft of iteration 0 (not a refined
draft — none is produced, the single worker invocation being the initial
generation). -/
theorem claim_C4 (worker : String → Option String → String)
    (critic : String → String → String × Bool) (prompt : String)
    (m : Nat) (h0 : List IterationData) (hm : 1 ≤ m)
    (hna : ∀ j, j < m → approvesAt worker critic prompt j = false) :
    (CAPL.run worker critic prompt m h0).approved = false ∧
    (CAPL.run worker critic prompt m h0).final_work =
      workAt worker critic prompt (m - 1) ∧
    (CAPL.run worker critic prompt m h0).history.length =
      h0.length + m + 1 ∧
    (m = 1 →
      (CAPL.run worker critic prompt 1 []).history.length = 2 ∧
      (CAPL.run worker critic prompt 1 []).final_work =
        workAt worker critic prompt 0 ∧
      countWorker (CAPL.run worker critic prompt 1 []).trace = 1) := by
  obtain ⟨Hd, Td, hhl, hwc, hrun⟩ := runLoop_exhausts worker critic prompt
    (m - 1) 0
    (by
      intro j hj
      have hx := hna j (by omega)
      simpa using hx)
  simp only [Nat.zero_add] at hrun
  rw [show m - 1 + 1 = m from by omega] at hrun
  rw [show workAt worker critic prompt 0 = worker prompt none from rfl] at hrun
  have hr := hrun (h0 ++ [⟨0, some (worker prompt none), none, false⟩])
    [Event.workerCall prompt none]
  refine ⟨?_, ?_, ?_, ?_⟩
  · show lastApproved (runLoop worker critic prompt 1 m (worker prompt none)
      (h0 ++ [⟨0, some (worker prompt none), none, false⟩])
      [Event.workerCall prompt none]).2.1 = false
    rw [hr]
    show lastApproved _ = false
    unfold lastApproved
    rw [getLastOfConcat]
  · show (runLoop worker critic prompt 1 m (worker prompt none)
      (h0 ++ [⟨0, some (worker prompt none), none, false⟩])
      [Event.workerCall prompt none]).1 = _
    rw [hr]
  · show (runLoop worker critic prompt 1 m (worker prompt none)
      (h0 ++ [⟨0, some (worker prompt none), none, false⟩])
      [Event.workerCall prompt none]).2.1.length = _
    rw [hr]
    simp only [List.length_append, List.length_cons, List.length_nil,
      List.length_singleton]
    omega
  · intro hm1
    subst hm1
    have hr1 := hrun ([] ++ [⟨0, some (worker prompt none), none, false⟩])
      [Event.workerCall prompt none]
    refine ⟨?_, ?_, ?_⟩
    · show (runLoop worker critic prompt 1 1 (worker prompt none)
        ([] ++ [⟨0, some (worker prompt none), none, false⟩])
        [Event.workerCall prompt none]).2.1.length = 2
      rw [hr1]
      simp only [List.length_append, List.length_cons, List.length_nil,
        List.length_singleton]
      omega
    · show (runLoop worker critic prompt 1 1 (worker prompt none)
        ([] ++ [⟨0, some (worker prompt none), none, false⟩])
        [Event.workerCall prompt none]).1 = _
      rw [hr1]
    · show countWorker (runLoop worker critic prompt 1 1 (worker prompt none)
        ([] ++ [⟨0, some (worker prompt none), none, false⟩])
        [Event.workerCall prompt none]).2.2 = 1
      rw [hr1]
      rw [countWorker_append, countWorker_append]
      have hwc' : countWorker Td = 0 := by omega
      rw [hwc']
      rfl

/-- C4 witness: a critic that never approves, with budget 1. -/
theorem claim_C4_witness :
    (CAPL.run
      (fun _ fb => match fb with | none => "draft1" | some _ => "draft2")
      (fun _ _ => ("NEEDS WORK: add detail", false)) "X" 1 []).approved =
      false :=
  (claim_C4
    (fun _ fb => match fb with | none => "draft1" | some _ => "draft2")
    (fun _ _ => ("NEEDS WORK: add detail", false)) "X" 1 [] (by omega)
    (fun _ _ => rfl)).1

/-- C5: for every `maxIterations ≥ 0`, a single run invokes the critic at
most `maxIterations` times, appends at most `maxIterations + 1` records,
and appends them in execution order: the `j`-th record appended by the run
carries iteration index `j` (0 for the initial generation, `1..k` for the
review cycles). -/
theorem claim_C5 (worker : String → Option String → String)
    (critic : String → String → String × Bool) (prompt : String)
    (m : Nat) (h0 : List IterationData) :
    ∃ Δ : List IterationData,
      (CAPL.run worker critic prompt m h0).history = h0 ++ Δ ∧
      Δ.length ≤ m + 1 ∧
      (∀ j (hj : j < Δ.length), (Δ.get ⟨j, hj⟩).iteration = j) ∧
      countCritic (CAPL.run worker critic prompt m h0).trace ≤ m := by
  obtain ⟨Δ, tr, fw, _, hlen, hidx, hcc, hall⟩ :=
    run_decomp worker critic prompt m
  exact ⟨Δ, (hall h0).1, hlen, hidx, by rw [(hall h0).2.1]; exact hcc⟩

/-- C5 witness at a concrete worker, critic and budget. -/
theorem claim_C5_witness :
    ∃ Δ : List IterationData,
      (CAPL.run (fun _ _ => "w") (fun _ _ => ("f", false)) "p" 2 []).history =
        [] ++ Δ ∧
      Δ.length ≤ 2 + 1 ∧
      (∀ j (hj : j < Δ.length), (Δ.get ⟨j, hj⟩).iteration = j) ∧
      countCritic
        (CAPL.run (fun _ _ => "w") (fun _ _ => ("f", false)) "p" 2 []).trace ≤
        2 :=
  claim_C5 (fun _ _ => "w") (fun _ _ => ("f", false)) "p" 2 []

/-- C6: with `maxIterations = 0` on a fresh instance, a run performs only
the initial worker generation: the critic is never invoked (no critic
event in the trace), the history is exactly the single index-0 record with
no feedback, and the `approved` flag is false. -/
theorem claim_C6 (worker : String → Option String → String)
    (critic : String → String → String × Bool) (prompt : String) :
    (CAPL.run worker critic prompt 0 []).history =
      [⟨0, some (worker prompt none), none, false⟩] ∧
    countCritic (CAPL.run worker critic prompt 0 []).trace = 0 ∧
    (CAPL.run worker critic prompt 0 []).approved = false := by
  refine ⟨rfl, rfl, rfl⟩

/-- C6 witness at a concrete worker and critic. -/
theorem claim_C6_witness :
    (CAPL.run (fun _ _ => "w") (fun _ _ => ("f", true)) "p" 0 []).history =
      [⟨0, some "w", none, false⟩] ∧
    countCritic
      (CAPL.run (fun _ _ => "w") (fun _ _ => ("f", true)) "p" 0 []).trace = 0 ∧
    (CAPL.run (fun _ _ => "w") (fun _ _ => ("f", true)) "p" 0 []).approved =
      false :=
  claim_C6 (fun _ _ => "w") (fun _ _ => ("f", true)) "p"

/-- C10: the history is an instance attribute that `run` never resets: a
second call to `run` appends its records after those of the first run, so
the second returned result's history is the first run's history followed
by exactly the records the second run would produce from a fresh instance;
the first run's history is nonempty, so with `maxIterations = 0` the
second run's history has the first one's length plus one (and hence never
length 1);  the `approved` flag of the combined result equals the one the
second run would report on a fresh instance (it is read from the last
record, which belongs to the latest run). -/
theorem claim_C10 (worker : String → Option String → String)
    (critic : String → String → String × Bool) (p1 p2 : String)
    (m1 m2 : Nat) (h0 : List IterationData) :
    (CAPL.run worker critic p2 m2
        (CAPL.run worker critic p1 m1 h0).history).history =
      (CAPL.run worker critic p1 m1 h0).history ++
        (CAPL.run worker critic p2 m2 []).history ∧
    (CAPL.run worker critic p2 m2
        (CAPL.run worker critic p1 m1 h0).history).approved =
      (CAPL.run worker critic p2 m2 []).approved ∧
    1 ≤ (CAPL.run worker critic p1 m1 h0).history.length ∧
    (m2 = 0 →
      (CAPL.run worker critic p2 m2
        (CAPL.run worker critic p1 m1 h0).history).history.length =
      (CAPL.run worker critic p1 m1 h0).history.length + 1) := by
  obtain ⟨Δ1, tr1, fw1, hne1, _, _, _, hall1⟩ :=
    run_decomp worker critic p1 m1
  obtain ⟨Δ2, tr2, fw2, hne2, hlen2, _, _, hall2⟩ :=
    run_decomp worker critic p2 m2
  have h2run := hall2 (CAPL.run worker critic p1 m1 h0).history
  have h2fresh := hall2 []
  refine ⟨?_, ?_, ?_, ?_⟩
  · rw [h2run.1, h2fresh.1]
    simp
  · rw [h2run.2.2.2, h2fresh.2.2.2]
  · rw [(hall1 h0).1]
    have := List.length_pos.mpr hne1
    simp only [List.length_append]
    omega
  · intro hm2
    subst hm2
    have hl2 : Δ2.length = 1 := by
      have := List.length_pos.mpr hne2
      omega
    rw [h2run.1]
    simp only [List.length_append, hl2]

/-- C10 witness at a concrete worker, critic and budgets. -/
theorem claim_C10_witness :
    (CAPL.run (fun _ _ => "w") (fun _ _ => ("f", false)) "q" 0
        (CAPL.run (fun _ _ => "w") (fun _ _ => ("f", false)) "p" 0
          []).history).history =
      (CAPL.run (fun _ _ => "w") (fun _ _ => ("f", false)) "p" 0 []).history ++
        (CAPL.run (fun _ _ => "w") (fun _ _ => ("f", false)) "q" 0
          []).history :=
  (claim_C10 (fun _ _ => "w") (fun _ _ => ("f", false)) "p" "q" 0 0 []).1

/-- C7: the critic's structured status is derived solely from the literal
leading prefix of its raw response: a response beginning with
`"APPROVED:"` yields `approved`; one beginning with
`"NEEDS VERIFICATION:"` yields `pendingVerification`; any other response
yields `needsWork`; no other parsing of the response body affects the
status (two responses agreeing on the two prefix tests get the same
status); and for loop control `pendingVerification` is handled exactly
like `needsWork`: both correspond to `is_approved = false`, the only
boolean the orchestrator loop branches on, so the run proceeds to
refinement or exhaustion without waiting. -/
theorem claim_C7 (s : String) :
    (criticStatus s = ReviewStatus.approved ↔ is_approved s = true) ∧
    (criticStatus s = ReviewStatus.pendingVerification ↔
      needs_verification s = true) ∧
    (criticStatus s = ReviewStatus.needsWork ↔
      (is_approved s = false ∧ needs_verification s = false)) ∧
    (is_approved s = false ↔
      (criticStatus s = ReviewStatus.pendingVerification ∨
       criticStatus s = ReviewStatus.needsWork)) ∧
    (∀ t : String, is_approved t = is_approved s →
      needs_verification t = needs_verification s →
      criticStatus t = criticStatus s) := by
  by_cases hN : needs_verification s = true
  · have hA : is_approved s = false := needs_verification_not_approved s hN
    refine ⟨?_, ?_, ?_, ?_, ?_⟩
    · simp [criticStatus, hA, hN]
    · simp [criticStatus, hA, hN]
    · simp [criticStatus, hA, hN]
    · simp [criticStatus, hA, hN]
    · intro t h1 h2
      simp [criticStatus, h1, h2]
  · rw [Bool.not_eq_true] at hN
    by_cases hA : is_approved s = true
    · refine ⟨?_, ?_, ?_, ?_, ?_⟩
      · simp [criticStatus, hA, hN]
      · simp [criticStatus, hA, hN]
      · simp [criticStatus, hA, hN]
      · simp [criticStatus, hA, hN]
      · intro t h1 h2
        simp [criticStatus, h1, h2]
    · rw [Bool.not_eq_true] at hA
      refine ⟨?_, ?_, ?_, ?_, ?_⟩
      · simp [criticStatus, hA, hN]
      · simp [criticStatus, hA, hN]
      · simp [criticStatus, hA, hN]
      · simp [criticStatus, hA, hN]
      · intro t h1 h2
        simp [criticStatus, h1, h2]

/-- C7 witness: a verification-requesting response gets the
`pendingVerification` status. -/
theorem claim_C7_witness :
    criticStatus "NEEDS VERIFICATION: check the dates" =
      ReviewStatus.pendingVerification :=
  (claim_C7 "NEEDS VERIFICATION: check the dates").2.1.mpr (by decide)

/-- C1 counterexample, refuting the claim as stated: when
`subprocess.Popen` raises (missing executable), the exception handler of
`run_with_pty` (src/capl_cli.py lines 143-154) closes only the master
descriptor — the slave descriptor of the pseudo-terminal pair remains
open when the call returns, so it is not true that both descriptors are
closed on every exit path. -/
theorem claim_C1_counterexample :
    (run_with_pty "x" 120 PtyScenario.spawnFails).2.slaveOpen = true := rfl

/-- C1 (amended): on every exit path of the pseudo-terminal transport,
the master descriptor is closed and the spawned child process (if any) is
not left running; the slave descriptor is also closed on every exit path
on which the spawn succeeded, but it leaks when `subprocess.Popen` itself
raises. -/
theorem claim_C1 (input_text : String) (timeout : Nat) (sc : PtyScenario) :
    (run_with_pty input_text timeout sc).2.masterOpen = false ∧
    (run_with_pty input_text timeout sc).2.childRunning = false ∧
    (∀ b, sc = PtyScenario.spawned b →
      (run_with_pty input_text timeout sc).2.slaveOpen = false) := by
  cases sc with
  | spawnFails =>
    refine ⟨rfl, rfl, ?_⟩
    intro b hb
    exact PtyScenario.noConfusion hb
  | spawned b =>
    obtain ⟨wo, steps, re, et, ec, ct⟩ := b
    cases re <;> cases wo <;> exact ⟨rfl, rfl, fun _ _ => rfl⟩

/-- C1 witness: a successful-spawn scenario, with all three cleanup facts. -/
theorem claim_C1_witness :
    (run_with_pty "x" 120 (PtyScenario.spawned
      ⟨WriteOutcome.completed, [], ReadEnd.eof, "", 0, false⟩)).2.masterOpen =
      false ∧
    (run_with_pty "x" 120 (PtyScenario.spawned
      ⟨WriteOutcome.completed, [], ReadEnd.eof, "", 0, false⟩)).2.childRunning =
      false ∧
    (run_with_pty "x" 120 (PtyScenario.spawned
      ⟨WriteOutcome.completed, [], ReadEnd.eof, "", 0, false⟩)).2.slaveOpen =
      false := by
  have h := claim_C1 "x" 120 (PtyScenario.spawned
    ⟨WriteOutcome.completed, [], ReadEnd.eof, "", 0, false⟩)
  exact ⟨h.1, h.2.1, h.2.2 _ rfl⟩

/-- C2 counterexample, refuting the claim as stated: when the wall-clock
deadline elapses, `run_with_pty` kills the child and then *raises*
`RuntimeError` (src/capl_cli.py lines 91-93); the timeout is not reported
as a returned result. -/
theorem claim_C2_counterexample :
    (run_with_pty "p" 120 (PtyScenario.spawned
      ⟨WriteOutcome.completed, [], ReadEnd.deadline, "", 0, false⟩)).1 =
      PtyOutcome.timeoutRaised 120 ∧
    isReturnedResult (run_with_pty "p" 120 (PtyScenario.spawned
      ⟨WriteOutcome.completed, [], ReadEnd.deadline, "", 0, false⟩)).1 =
      false ∧
    (run_with_pty "p" 120 (PtyScenario.spawned
      ⟨WriteOutcome.completed, [], ReadEnd.deadline, "", 0,
        false⟩)).2.childRunning = false :=
  ⟨rfl, rfl, rfl⟩

/-- C2 (amended): every transport invocation ends in exactly one of four
exit classes — returned result, raised deadline `RuntimeError`, propagated
`FileNotFoundError`, re-raised writer error (the `Success`/`Timeout`/
`NotFound`/`Failed` taxonomy of the specification); when the wall-clock
deadline elapses before the external process exits, the child is
force-killed and the invocation *raises* the timeout error instead of
returning a result; and a missing executable propagates
`FileNotFoundError`, which `CodexCriticAgentCLI.generate` converts into
its not-found `RuntimeError`. -/
theorem claim_C2 (input_text : String) (timeout : Nat) (sc : PtyScenario) :
    ([isReturnedResult (run_with_pty input_text timeout sc).1,
      isTimeoutRaised (run_with_pty input_text timeout sc).1,
      isNotFoundRaised (run_with_pty input_text timeout sc).1,
      isWriteErrorRaised (run_with_pty input_text timeout sc).1].count true =
      1) ∧
    (hitsDeadline sc = true →
      (run_with_pty input_text timeout sc).1 =
        PtyOutcome.timeoutRaised timeout ∧
      (run_with_pty input_text timeout sc).2.childRunning = false ∧
      isReturnedResult (run_with_pty input_text timeout sc).1 = false) ∧
    (sc = PtyScenario.spawnFails →
      (run_with_pty input_text timeout sc).1 =
        PtyOutcome.fileNotFoundRaised ∧
      codexGenerate input_text sc = CriticCallOutcome.raisedNotFound) := by
  cases sc with
  | spawnFails =>
    refine ⟨rfl, ?_, ?_⟩
    · intro h
      simp [hitsDeadline] at h
    · intro _
      exact ⟨rfl, rfl⟩
  | spawned b =>
    obtain ⟨wo, steps, re, et, ec, ct⟩ := b
    refine ⟨?_, ?_, ?_⟩
    · cases re <;> cases wo <;> rfl
    · intro h
      cases re with
      | deadline => exact ⟨rfl, rfl, rfl⟩
      | eof => simp [hitsDeadline] at h
      | childExited fc => simp [hitsDeadline] at h
      | readFailed => simp [hitsDeadline] at h
    · intro h
      exact PtyScenario.noConfusion h

/-- C2 witness: the spawn-failure scenario, taking the not-found clause. -/
theorem claim_C2_witness :
    (run_with_pty "x" 120 PtyScenario.spawnFails).1 =
      PtyOutcome.fileNotFoundRaised ∧
    codexGenerate "x" PtyScenario.spawnFails =
      CriticCallOutcome.raisedNotFound :=
  (claim_C2 "x" 120 PtyScenario.spawnFails).2.2 rfl

/-- C9 counterexample, refuting the claim as stated: for an external
command that echoes its input verbatim to stdout, the pseudo-terminal
transport does *not* return output exactly equal to the input: line 138 of
src/capl_cli.py applies `.strip()` to the drained output, so echoing
`"x\n"` yields `"x"`, which differs from the input. -/
theorem claim_C9_counterexample :
    (run_with_pty "x\n" 120 (PtyScenario.spawned
      ⟨WriteOutcome.completed, [ReadStep.chunk "x\n"], ReadEnd.eof, "", 0,
        false⟩)).1 = PtyOutcome.result "x" "" 0 ∧
    ("x" : String) ≠ "x\n" :=
  ⟨by decide, by decide⟩

/-- C9 (amended): for an external command that echoes its input verbatim
to stdout and exits before the deadline, pipe mode returns output exactly
equal to the input text, while pseudo-terminal mode returns the input text
stripped of leading and trailing whitespace — equal to the input exactly
when the input carries no such whitespace. -/
theorem claim_C9 (input_text : String) (timeout : Nat)
    (b : SpawnedBehavior) (childStderr : String) (code : Int)
    (hw : b.writeOutcome = WriteOutcome.completed)
    (hnd : b.readEnd ≠ ReadEnd.deadline)
    (hecho : drainedOutput b.readSteps b.readEnd = input_text) :
    (run_with_pty input_text timeout (PtyScenario.spawned b)).1 =
      PtyOutcome.result (pyStrip input_text) b.stderrText b.exitCode ∧
    (pyStrip input_text = input_text →
      (run_with_pty input_text timeout (PtyScenario.spawned b)).1 =
        PtyOutcome.result input_text b.stderrText b.exitCode) ∧
    (run_with_pipes input_text input_text childStderr code).stdout =
      input_text := by
  obtain ⟨wo, steps, re, et, ec, ct⟩ := b
  have hw' : wo = WriteOutcome.completed := hw
  subst hw'
  have hmain : (run_with_pty input_text timeout (PtyScenario.spawned
      ⟨WriteOutcome.completed, steps, re, et, ec, ct⟩)).1 =
      PtyOutcome.result (pyStrip input_text) et ec := by
    cases re with
    | deadline => exact absurd rfl hnd
    | eof =>
      show PtyOutcome.result
        (pyStrip (drainedOutput steps ReadEnd.eof)) et ec = _
      rw [show drainedOutput steps ReadEnd.eof = input_text from hecho]
    | childExited fc =>
      show PtyOutcome.result
        (pyStrip (drainedOutput steps (ReadEnd.childExited fc))) et ec = _
      rw [show drainedOutput steps (ReadEnd.childExited fc) = input_text
        from hecho]
    | readFailed =>
      show PtyOutcome.result
        (pyStrip (drainedOutput steps ReadEnd.readFailed)) et ec = _
      rw [show drainedOutput steps ReadEnd.readFailed = input_text from hecho]
  refine ⟨hmain, ?_, rfl⟩
  intro hs
  rw [hmain, hs]

/-- C9 witness: echoing `"hello"` (no surrounding whitespace) through the
pseudo-terminal transport returns exactly `"hello"`. -/
theorem claim_C9_witness :
    (run_with_pty "hello" 120 (PtyScenario.spawned
      ⟨WriteOutcome.completed, [ReadStep.chunk "hello"], ReadEnd.eof, "", 0,
        false⟩)).1 = PtyOutcome.result "hello" "" 0 :=
  (claim_C9 "hello" 120
    ⟨WriteOutcome.completed, [ReadStep.chunk "hello"], ReadEnd.eof, "", 0,
      false⟩ "" 0 rfl (by decide) (by decide)).2.1 (by decide)

/-- C8 counterexample, refuting the claim as stated: when all three
invocation strategies fail (distinct diagnostics `"e1"`, `"e2"`, `"e3"`),
the single composite failure message contains only the *final* attempt's
diagnostic text: `"e3"` occurs in it, while `"e1"` and `"e2"` do not — it
does not carry the diagnostic text of each failed attempt. -/
theorem claim_C8_counterexample :
    call_cli ⟨1, "", "e1"⟩ ⟨1, "", "e2"⟩ ⟨1, "", "e3"⟩ =
      Except.error (openaiFailMessage "e3") ∧
    pyIn "e3" (openaiFailMessage "e3") = true ∧
    pyIn "e1" (openaiFailMessage "e3") = false ∧
    pyIn "e2" (openaiFailMessage "e3") = false :=
  ⟨rfl, by decide, by decide, by decide⟩

/-- C8 (amended): the configured invocation strategies are attempted in
order and the stripped stdout of the first strategy whose process exits
with status zero is returned, the outcome being independent of the later
strategies (they are not attempted); when every strategy exits nonzero,
exactly one composite failure is produced, and its message carries the
diagnostic text of the *final* failed attempt together with the fixed
remediation guidance (the earlier attempts' diagnostics are discarded). -/
theorem claim_C8 (a1 a2 a3 : AttemptResult) :
    (a1.returncode = 0 →
      call_cli a1 a2 a3 = Except.ok (pyStrip a1.stdout) ∧
      ∀ b2 b3, call_cli a1 b2 b3 = call_cli a1 a2 a3) ∧
    (a1.returncode ≠ 0 → a2.returncode = 0 →
      call_cli a1 a2 a3 = Except.ok (pyStrip a2.stdout) ∧
      ∀ b3, call_cli a1 a2 b3 = call_cli a1 a2 a3) ∧
    (a1.returncode ≠ 0 → a2.returncode ≠ 0 → a3.returncode = 0 →
      call_cli a1 a2 a3 = Except.ok (pyStrip a3.stdout)) ∧
    (a1.returncode ≠ 0 → a2.returncode ≠ 0 → a3.returncode ≠ 0 →
      call_cli a1 a2 a3 =
        Except.error ("OpenAI CLI failed: " ++ a3.stderr ++ "\n\n" ++
          openaiHint)) := by
  refine ⟨?_, ?_, ?_, ?_⟩
  · intro h1
    constructor
    · simp [call_cli, h1]
    · intro b2 b3
      simp [call_cli, h1]
  · intro h1 h2
    constructor
    · simp [call_cli, h1, h2]
    · intro b3
      simp [call_cli, h1, h2]
  · intro h1 h2 h3
    simp [call_cli, h1, h2, h3]
  · intro h1 h2 h3
    simp [call_cli, openaiFailMessage, h1, h2, h3]

/-- C8 witness: first two strategies exit nonzero, the third exits 0, so
its output is returned. -/
theorem claim_C8_witness :
    call_cli ⟨1, "", "e1"⟩ ⟨1, "", "e2"⟩ ⟨0, "out3", ""⟩ =
      Except.ok (pyStrip "out3") :=
  (claim_C8 ⟨1, "", "e1"⟩ ⟨1, "", "e2"⟩ ⟨0, "out3", ""⟩).2.2.1
    (by decide) (by decide) rfl
